import Mathlib

/-!
Verification of the chat-completion gateway of this repository
(`OpenRouterClient.createChatCompletion`, in its two adapter variants),
as a shallow embedding: JSON decoding, markdown-fence stripping, the
greedy brace-span search, message formatting, cache-key construction,
the structured-output extraction pipeline and the retry recursion.
-/

namespace Stagehand

/-- Character constants used by the decoder, written via code points. -/
def quoteChar : Char := Char.ofNat 34

def lbraceChar : Char := Char.ofNat 123

def rbraceChar : Char := Char.ofNat 125

def backslashChar : Char := Char.ofNat 92

/-- JSON value tree, the result of `JSON.parse`. Numbers are rationals:
ECMAScript number equality on the integral inputs used here coincides with
rational equality. -/
inductive Json where
  | null
  | bool (b : Bool)
  | num (q : ℚ)
  | str (s : String)
  | arr (elems : List Json)
  | obj (members : List (String × Json))

/-- JSON whitespace characters accepted by `JSON.parse`. -/
def isJsonWs (c : Char) : Bool := c = ' ' || c = '\t' || c = '\n' || c = '\r'

/-- Drop leading JSON whitespace. -/
def skipWs : List Char → List Char
  | [] => []
  | c :: cs => if isJsonWs c then skipWs cs else c :: cs

/-- Consume an exact literal character sequence, returning the remainder. -/
def dropLiteral : List Char → List Char → Option (List Char)
  | [], cs => some cs
  | _ :: _, [] => none
  | p :: ps, c :: cs => if c = p then dropLiteral ps cs else none

/-- Hexadecimal digit value. -/
def hexVal (c : Char) : Option Nat :=
  if '0' ≤ c ∧ c ≤ '9' then some (c.toNat - 48)
  else if 'a' ≤ c ∧ c ≤ 'f' then some (c.toNat - 87)
  else if 'A' ≤ c ∧ c ≤ 'F' then some (c.toNat - 55)
  else none

/-- String-literal body decoder for JSON strings (after the opening quote):
handles the escape sequences `JSON.parse` accepts and rejects raw control
characters. -/
def parseStringBody : Nat → List Char → List Char → Option (String × List Char)
  | 0, _, _ => none
  | _ + 1, _, [] => none
  | fuel + 1, acc, c :: rest =>
    if c = quoteChar then some (String.mk acc.reverse, rest)
    else if c = backslashChar then
      match rest with
      | [] => none
      | e :: rest2 =>
        if e = quoteChar then parseStringBody fuel (quoteChar :: acc) rest2
        else if e = backslashChar then parseStringBody fuel (backslashChar :: acc) rest2
        else if e = '/' then parseStringBody fuel ('/' :: acc) rest2
        else if e = 'n' then parseStringBody fuel ('\n' :: acc) rest2
        else if e = 't' then parseStringBody fuel ('\t' :: acc) rest2
        else if e = 'r' then parseStringBody fuel ('\r' :: acc) rest2
        else if e = 'b' then parseStringBody fuel (Char.ofNat 8 :: acc) rest2
        else if e = 'f' then parseStringBody fuel (Char.ofNat 12 :: acc) rest2
        else if e = 'u' then
          match rest2 with
          | h1 :: h2 :: h3 :: h4 :: rest3 =>
            match hexVal h1, hexVal h2, hexVal h3, hexVal h4 with
            | some a, some b, some c2, some d =>
              parseStringBody fuel (Char.ofNat (((a * 16 + b) * 16 + c2) * 16 + d) :: acc) rest3
            | _, _, _, _ => none
          | _ => none
        else none
    else if c.toNat < 32 then none
    else parseStringBody fuel (c :: acc) rest

/-- Decimal digit test. -/
def isDigitChar (c : Char) : Bool := '0' ≤ c && c ≤ '9'

/-- Numeric value of a digit string. -/
def natOfDigits (ds : List Char) : Nat := ds.foldl (fun a c => a * 10 + (c.toNat - 48)) 0

/-- Rational power of ten. -/
def pow10 (n : Nat) : ℚ := (10 : ℚ) ^ n

/-- Integer part of a JSON number: a single `0`, or a nonzero digit followed
by digits (leading zeros rejected, as in the JSON grammar). -/
def parseIntDigits : List Char → Option (List Char × List Char)
  | [] => none
  | c :: cs =>
    if c = '0' then some ([c], cs)
    else if isDigitChar c then
      let p := cs.span isDigitChar
      some (c :: p.1, p.2)
    else none

/-- Optional fraction part; `some ([], cs)` means no fraction present. -/
def parseFrac (cs : List Char) : Option (List Char × List Char) :=
  match cs with
  | c :: rest =>
    if c = '.' then
      match rest.span isDigitChar with
      | ([], _) => none
      | (ds, r) => some (ds, r)
    else some ([], cs)
  | [] => some ([], cs)

/-- Optional exponent part, returning (negated, magnitude, rest). -/
def parseExpPart (cs : List Char) : Option (Bool × Nat × List Char) :=
  match cs with
  | c :: rest =>
    if c = 'e' || c = 'E' then
      let (eneg, rest2) :=
        match rest with
        | d :: r2 => if d = '+' then (false, r2) else if d = '-' then (true, r2) else (false, rest)
        | [] => (false, rest)
      match rest2.span isDigitChar with
      | ([], _) => none
      | (ds, r) => some (eneg, natOfDigits ds, r)
    else some (false, 0, cs)
  | [] => some (false, 0, cs)

/-- Numeric value of a parsed JSON number literal. -/
def mkJsonNumber (neg : Bool) (ids fds : List Char) (eneg : Bool) (ev : Nat) : ℚ :=
  let mag : ℚ :=
    if fds = [] ∧ eneg = false ∧ ev = 0 then (natOfDigits ids : ℚ)
    else
      let base : ℚ := (natOfDigits ids : ℚ) + (natOfDigits fds : ℚ) / pow10 fds.length
      if eneg then base / pow10 ev else base * pow10 ev
  if neg then -mag else mag

/-- JSON number literal decoder. -/
def parseNum (cs : List Char) : Option (ℚ × List Char) :=
  let sp : Bool × List Char :=
    match cs with
    | c :: rest => if c = '-' then (true, rest) else (false, cs)
    | [] => (false, cs)
  match parseIntDigits sp.2 with
  | none => none
  | some (ids, cs2) =>
    match parseFrac cs2 with
    | none => none
    | some (fds, cs3) =>
      match parseExpPart cs3 with
      | none => none
      | some (eneg, ev, cs4) => some (mkJsonNumber sp.1 ids fds eneg ev, cs4)

mutual

/-- JSON value decoder (fuel-indexed recursive descent). -/
def parseVal : Nat → List Char → Option (Json × List Char)
  | 0, _ => none
  | fuel + 1, cs =>
    match skipWs cs with
    | [] => none
    | c :: rest =>
      if c = lbraceChar then
        match skipWs rest with
        | [] => none
        | c2 :: rest2 =>
          if c2 = rbraceChar then some (.obj [], rest2)
          else parseMembers fuel (c2 :: rest2) []
      else if c = '[' then
        match skipWs rest with
        | [] => none
        | c2 :: rest2 =>
          if c2 = ']' then some (.arr [], rest2)
          else parseElems fuel (c2 :: rest2) []
      else if c = quoteChar then
        match parseStringBody (rest.length + 1) [] rest with
        | some (s, r) => some (.str s, r)
        | none => none
      else if c = 't' then
        match dropLiteral ['r', 'u', 'e'] rest with
        | some r => some (.bool true, r)
        | none => none
      else if c = 'f' then
        match dropLiteral ['a', 'l', 's', 'e'] rest with
        | some r => some (.bool false, r)
        | none => none
      else if c = 'n' then
        match dropLiteral ['u', 'l', 'l'] rest with
        | some r => some (.null, r)
        | none => none
      else
        match parseNum (c :: rest) with
        | some (q, r) => some (.num q, r)
        | none => none

/-- Object members decoder; the input starts at the first (non-whitespace)
character of a key. -/
def parseMembers : Nat → List Char → List (String × Json) → Option (Json × List Char)
  | 0, _, _ => none
  | fuel + 1, cs, acc =>
    match cs with
    | [] => none
    | c :: rest =>
      if c = quoteChar then
        match parseStringBody (rest.length + 1) [] rest with
        | none => none
        | some (k, rest2) =>
          match skipWs rest2 with
          | [] => none
          | c2 :: rest3 =>
            if c2 = ':' then
              match parseVal fuel rest3 with
              | none => none
              | some (v, rest4) =>
                match skipWs rest4 with
                | [] => none
                | c3 :: rest5 =>
                  if c3 = ',' then parseMembers fuel (skipWs rest5) ((k, v) :: acc)
                  else if c3 = rbraceChar then some (.obj ((k, v) :: acc).reverse, rest5)
                  else none
            else none
      else none

/-- Array elements decoder; the input starts at the first element. -/
def parseElems : Nat → List Char → List Json → Option (Json × List Char)
  | 0, _, _ => none
  | fuel + 1, cs, acc =>
    match parseVal fuel cs with
    | none => none
    | some (v, rest) =>
      match skipWs rest with
      | [] => none
      | c :: rest2 =>
        if c = ',' then parseElems fuel rest2 (v :: acc)
        else if c = ']' then some (.arr (v :: acc).reverse, rest2)
        else none

end

/-- Model of ECMAScript `JSON.parse`: decode one value, then require only
whitespace to remain. Fuel `2*length+2` dominates the decoder's needs since
every two consecutive fuel decrements consume at least one character. -/
def jsonParse (s : String) : Option Json :=
  match parseVal (2 * s.length + 2) s.data with
  | some (j, rest) => if skipWs rest = [] then some j else none
  | none => none

/-- Remove every occurrence of `marker` together with one directly following
newline, scanning left to right: the model of
`String.prototype.replace` with a global `marker\n?` pattern. -/
def stripMarkerAux (marker : List Char) : Nat → List Char → List Char
  | 0, cs => cs
  | _ + 1, [] => []
  | fuel + 1, c :: cs =>
    match dropLiteral marker (c :: cs) with
    | some rest =>
      match rest with
      | r :: rest2 =>
        if r = '\n' then stripMarkerAux marker fuel rest2
        else stripMarkerAux marker fuel (r :: rest2)
      | [] => []
    | none => c :: stripMarkerAux marker fuel cs

/-- The marker of a fenced JSON block. -/
def fenceJsonMarker : List Char := "```json".data

/-- The generic fence marker. -/
def fenceMarker : List Char := "```".data

/-- Model of the two `replace` calls of the extractor:
strip every ```json fence marker, then every ``` fence marker
(each with one optional trailing newline). -/
def stripFences (s : String) : String :=
  let c1 := stripMarkerAux fenceJsonMarker (s.data.length + 1) s.data
  String.mk (stripMarkerAux fenceMarker (c1.length + 1) c1)

/-- First index at which `target` occurs. -/
def findCharIdx (target : Char) : List Char → Option Nat
  | [] => none
  | c :: cs => if c = target then some 0 else (findCharIdx target cs).map (· + 1)

/-- Last index at which `target` occurs. -/
def lastCharIdx (target : Char) (cs : List Char) : Option Nat :=
  match findCharIdx target cs.reverse with
  | none => none
  | some rj => some (cs.length - 1 - rj)

/-- Model of `cleanedData.match` with the greedy brace regex of the
extractor: the leftmost match runs from the first opening brace to the last
closing brace of the whole text (greedy star), and exists exactly when some
closing brace occurs strictly after the first opening brace. -/
def jsonSpanMatch (s : String) : Option String :=
  let cs := s.data
  match findCharIdx lbraceChar cs, lastCharIdx rbraceChar cs with
  | some i, some j => if i < j then some (String.mk ((cs.take (j + 1)).drop i)) else none
  | _, _ => none

/-! ## Request data model -/

/-- Message roles of the canonical request (a closed enumeration). -/
inductive Role where
  | system
  | user
  | assistant

/-- One content part of a mixed-content message: text, or an image
reference carrying `image_url.url`. -/
inductive ContentPart where
  | text (t : String)
  | image (url : String)

/-- Message content: a plain string or an ordered sequence of parts. -/
inductive MessageContent where
  | str (s : String)
  | parts (ps : List ContentPart)

/-- A chat message of the canonical request (and of the formatted
vendor payload). -/
structure ChatMessage where
  role : Role
  content : MessageContent

/-- Recognizer for text parts (`content.type === "text"`). -/
def isTextPart : ContentPart → Bool
  | .text _ => true
  | .image _ => false

/-- Model of the per-message branch of `formattedMessages`: array content is
kept whole for user messages and filtered to its text parts for system and
assistant messages (the `else` branch of the array case is the assistant
shape); plain string content is passed through per role. -/
def formatMessage (m : ChatMessage) : ChatMessage :=
  match m.content with
  | .parts ps =>
    match m.role with
    | .system => { role := .system, content := .parts (ps.filter isTextPart) }
    | .user => { role := .user, content := .parts ps }
    | .assistant => { role := .assistant, content := .parts (ps.filter isTextPart) }
  | .str s =>
    match m.role with
    | .system => { role := .system, content := .str s }
    | .assistant => { role := .assistant, content := .str s }
    | .user => { role := .user, content := .str s }

/-- Parameter block of a tool specification. -/
structure ToolParams where
  properties : String
  required : List String

/-- A caller-supplied tool specification. -/
structure ToolSpec where
  name : String
  description : String
  parameters : ToolParams

/-- The vendor function-calling shape built from a `ToolSpec`; the constant
discriminators (`type: "function"`, `parameters.type: "object"`) are left
implicit. -/
structure FormattedTool where
  name : String
  description : String
  properties : String
  required : List String

/-- Translation of one tool spec into the vendor shape. -/
def formatTool (t : ToolSpec) : FormattedTool :=
  { name := t.name, description := t.description,
    properties := t.parameters.properties, required := t.parameters.required }

/-- The optional image attachment: raw bytes plus optional description. -/
structure ImageInput where
  buffer : List Nat
  description : Option String

/-- The base64 alphabet. -/
def base64Table : List Char :=
  "ABCDEFGHIJKLMNOPQRSTUVWXYZabcdefghijklmnopqrstuvwxyz0123456789+/".data

/-- One base64 output character. -/
def base64Digit (n : Nat) : Char := base64Table.getD n 'A'

/-- Model of `Buffer.toString("base64")` over a byte list. -/
def base64Encode : List Nat → List Char
  | [] => []
  | [a] => [base64Digit (a % 256 / 4), base64Digit (a % 4 * 16), '=', '=']
  | [a, b] =>
    [base64Digit (a % 256 / 4), base64Digit (a % 4 * 16 + b % 256 / 16),
     base64Digit (b % 16 * 4), '=']
  | a :: b :: c :: rest =>
    base64Digit (a % 256 / 4) :: base64Digit (a % 4 * 16 + b % 256 / 16) ::
    base64Digit (b % 16 * 4 + c % 256 / 64) :: base64Digit (c % 64) :: base64Encode rest

/-- Truthiness of an optional string (ECMAScript: absent and empty are
falsy). -/
def truthyStr : Option String → Bool
  | none => false
  | some s => s != ""

/-- Model of `o || dflt` on an optional string. -/
def truthyOrStr (o : Option String) (dflt : String) : String :=
  match o with
  | some s => if s = "" then dflt else s
  | none => dflt

/-- An abstract Zod schema: its JSON-Schema serialization
(`zodToJsonSchema`), the outcome of `zodResponseFormat` (`none` models the
helper throwing), and its validation predicate (`validateZodSchema`
succeeding). -/
structure ZodSchema where
  jsonSchemaText : String
  zodResponseFormatResult : Option String
  validates : Json → Bool

/-- The `response_model` pair of a structured-output request. -/
structure ResponseModel where
  name : String
  schema : ZodSchema

/-- The fields of the canonical `createChatCompletion` options object.
The retry budget is a separate argument of the call, as in the source. -/
structure ChatOptions where
  messages : List ChatMessage
  temperature : Option ℚ
  top_p : Option ℚ
  frequency_penalty : Option ℚ
  presence_penalty : Option ℚ
  image : Option ImageInput
  response_model : Option ResponseModel
  tools : Option (List ToolSpec)
  tool_choice : Option String
  maxTokens : Option Nat
  requestId : String

/-- The cache-key object (`cacheOptions` in the source): exactly the listed
eleven fields, in source order. -/
structure CacheOptions where
  model : String
  messages : List ChatMessage
  temperature : Option ℚ
  top_p : Option ℚ
  frequency_penalty : Option ℚ
  presence_penalty : Option ℚ
  image : Option ImageInput
  response_model : Option ResponseModel
  tools : Option (List ToolSpec)
  tool_choice : Option String
  maxTokens : Option Nat

/-- Construction of the cache key from the client's model name and the
request options; `requestId` and the retry budget do not occur. -/
def cacheOptions (modelName : String) (o : ChatOptions) : CacheOptions :=
  { model := modelName
    messages := o.messages
    temperature := o.temperature
    top_p := o.top_p
    frequency_penalty := o.frequency_penalty
    presence_penalty := o.presence_penalty
    image := o.image
    response_model := o.response_model
    tools := o.tools
    tool_choice := o.tool_choice
    maxTokens := o.maxTokens }

/-! ## Response data model -/

/-- Token usage accounting. -/
structure Usage where
  prompt_tokens : Nat
  completion_tokens : Nat
  total_tokens : Nat

/-- A tool call of a vendor reply (`function.name` / `function.arguments`). -/
structure ToolCall where
  id : String
  name : String
  arguments : String

/-- The assistant message of the canonical response choice. -/
structure RespMessage where
  role : String
  content : Option String
  tool_calls : List ToolCall

/-- One choice of the canonical response. -/
structure RespChoice where
  index : Nat
  message : RespMessage
  finish_reason : String

/-- The canonical `LLMResponse` shape the adapter returns. -/
structure LLMResponse where
  id : String
  object : String
  created : Nat
  model : String
  choices : List RespChoice
  usage : Usage

/-- The message of a raw vendor reply choice; both fields may be absent. -/
structure ApiMessage where
  content : Option String
  tool_calls : Option (List ToolCall)

/-- One choice of a raw vendor reply. -/
structure ApiChoice where
  message : Option ApiMessage
  finish_reason : Option String

/-- A raw vendor reply (the resolved value of
`client.chat.completions.create`). -/
structure ApiResponse where
  id : String
  created : Nat
  choices : List ApiChoice
  usage : Option Usage

/-- Model of `x || null` on an optional string: empty collapses to null. -/
def orNullStr : Option String → Option String
  | none => none
  | some s => if s = "" then none else some s

/-- The optional first-choice message of a vendor reply
(`apiResponse.choices[0]?.message`). -/
def apiRawMessage (api : ApiResponse) : Option ApiMessage :=
  api.choices.head?.bind (·.message)

/-- Normalized content (`...content || null`). -/
def normContent (api : ApiResponse) : Option String :=
  orNullStr ((apiRawMessage api).bind (·.content))

/-- Normalized tool calls (`...tool_calls || []`). -/
def normToolCalls (api : ApiResponse) : List ToolCall :=
  ((apiRawMessage api).bind (·.tool_calls)).getD []

/-- Normalized finish reason (`...finish_reason || "stop"`). -/
def normFinishReason (api : ApiResponse) : String :=
  truthyOrStr (api.choices.head?.bind (·.finish_reason)) "stop"

/-- Normalized usage (each field `|| 0`). -/
def normUsage (api : ApiResponse) : Usage :=
  match api.usage with
  | some u => u
  | none => { prompt_tokens := 0, completion_tokens := 0, total_tokens := 0 }

/-- The canonical response built from a raw vendor reply: exactly one
choice, with content/tool_calls/finish_reason defaulted as in the source. -/
def normalizeResponse (modelName : String) (api : ApiResponse) : LLMResponse :=
  { id := api.id
    object := "chat.completion"
    created := api.created
    model := modelName
    choices := [{ index := 0
                  message := { role := "assistant"
                               content := normContent api
                               tool_calls := normToolCalls api }
                  finish_reason := normFinishReason api }]
    usage := normUsage api }

/-! ## Request building (shared by both adapter variants) -/

/-- The temperature transmitted to the vendor:
`options.temperature || 0.7`, so both an absent temperature and a zero
temperature are replaced by 0.7. -/
def sentTemperature (t : Option ℚ) : ℚ :=
  match t with
  | none => 7 / 10
  | some x => if x = 0 then 7 / 10 else x

/-- The tools payload (`options.tools?.map(...)`). -/
def sentTools (o : ChatOptions) : Option (List FormattedTool) :=
  o.tools.map (List.map formatTool)

/-- The transmitted tool choice: defaulted to `"auto"` only when at least
one tool is present, otherwise omitted. -/
def sentToolChoice (tools : Option (List FormattedTool)) (tc : Option String) : Option String :=
  match tools with
  | some (_ :: _) => some (truthyOrStr tc "auto")
  | _ => none

/-- The user message appended for an image attachment: its description (or
the fallback prompt) plus the data-URL of the base64-encoded bytes. -/
def imageMessage (img : ImageInput) : ChatMessage :=
  { role := .user
    content := .parts
      [ .text (truthyOrStr img.description "Please analyze this image.")
      , .image ("data:image/png;base64," ++ String.mk (base64Encode img.buffer)) ] }

/-- Formatted conversation before any schema-instruction message: the
role-formatted input messages followed by the image message when an image
attachment is present. -/
def baseMessages (o : ChatOptions) : List ChatMessage :=
  o.messages.map formatMessage ++
    (match o.image with
     | some img => [imageMessage img]
     | none => [])

/-- The schema-instruction user message of the first adapter variant
(`src/lib/llm/OpenRouterClient.ts`), appended when `zodResponseFormat`
throws. -/
def instructionMessage1 (rm : ResponseModel) : ChatMessage :=
  { role := .user
    content := .str ("Respond in this JSON schema format:\n" ++ rm.schema.jsonSchemaText ++
      "\n\nDo not include any other text, formatting or markdown in your output. Only the JSON object itself.") }

/-- The schema-instruction user message of the second adapter variant,
always appended for a structured request. -/
def instructionMessage2 (rm : ResponseModel) : ChatMessage :=
  { role := .user
    content := .str ("Respond with ONLY valid JSON that matches this exact schema:\n" ++
      rm.schema.jsonSchemaText ++
      "\n\nIMPORTANT: Your response must be valid JSON with no additional text, explanations, or markdown formatting. Start your response with \x27\x7b\x27 and end with \x27\x7d\x27. Do not use ```json or any other formatting.") }

/-- The vendor call payload of the first adapter variant, including its
optional `response_format`. -/
structure ApiRequest1 where
  model : String
  messages : List ChatMessage
  temperature : ℚ
  max_tokens : Option Nat
  tools : Option (List FormattedTool)
  tool_choice : Option String
  response_format : Option String
  top_p : Option ℚ
  frequency_penalty : Option ℚ
  presence_penalty : Option ℚ

/-- The vendor call payload of the second adapter variant (it sends no
`response_format`). -/
structure ApiRequest2 where
  model : String
  messages : List ChatMessage
  temperature : ℚ
  max_tokens : Option Nat
  tools : Option (List FormattedTool)
  tool_choice : Option String
  top_p : Option ℚ
  frequency_penalty : Option ℚ
  presence_penalty : Option ℚ

/-- Request construction of the first variant: native structured decoding is
requested whenever `zodResponseFormat` succeeds on the schema; when it
throws, the schema-instruction message is appended instead and no
`response_format` is sent. -/
def buildApiRequest1 (modelName : String) (o : ChatOptions) : ApiRequest1 :=
  let mf : List ChatMessage × Option String :=
    match o.response_model with
    | none => (baseMessages o, none)
    | some rm =>
      match rm.schema.zodResponseFormatResult with
      | some f => (baseMessages o, some f)
      | none => (baseMessages o ++ [instructionMessage1 rm], none)
  let tools := sentTools o
  { model := modelName
    messages := mf.1
    temperature := sentTemperature o.temperature
    max_tokens := o.maxTokens
    tools := tools
    tool_choice := sentToolChoice tools o.tool_choice
    response_format := mf.2
    top_p := o.top_p
    frequency_penalty := o.frequency_penalty
    presence_penalty := o.presence_penalty }

/-- Request construction of the second variant: for a structured request the
schema-instruction message is always appended. -/
def buildApiRequest2 (modelName : String) (o : ChatOptions) : ApiRequest2 :=
  let msgs :=
    match o.response_model with
    | none => baseMessages o
    | some rm => baseMessages o ++ [instructionMessage2 rm]
  let tools := sentTools o
  { model := modelName
    messages := msgs
    temperature := sentTemperature o.temperature
    max_tokens := o.maxTokens
    tools := tools
    tool_choice := sentToolChoice tools o.tool_choice
    top_p := o.top_p
    frequency_penalty := o.frequency_penalty
    presence_penalty := o.presence_penalty }

/-! ## Pipeline outcomes -/

/-- Causes of one failed attempt, as distinguished by the source's throw
sites (all of them are caught by the invocation's outer handler). -/
inductive FailKind where
  | adapterError (msg : String)
  | noContentOrToolCalls
  | parseCleanedFailed
  | noJsonFound
  | parseFailed
  | zodValidationFailed
  | cacheSetFailed (msg : String)

/-- What a `createChatCompletion` invocation can raise to its caller: the
terminal `CreateChatCompletionResponseError` wrapping the last failure, or
an error of the cache backend's `get` (which the source calls outside its
try block, so it propagates unwrapped). -/
inductive PipelineError where
  | createChatCompletionResponseError (k : FailKind)
  | cacheGetError (msg : String)

/-- A value the pipeline can return (and the cache can hold): the raw
canonical response, or the `{data, usage}` pair of a structured request. -/
inductive CompletionValue where
  | raw (r : LLMResponse)
  | extracted (data : Json) (usage : Usage)

/-- Environment of the first adapter variant: the cache backend's fallible
`get`/`set` and the vendor endpoint, indexed by how many calls were already
made (so each attempt may observe a different outcome). -/
structure Env1 where
  modelName : String
  enableCaching : Bool
  cacheGet : CacheOptions → String → Except String (Option CompletionValue)
  cacheSet : CacheOptions → CompletionValue → String → Except String Unit
  send : Nat → ApiRequest1 → Except String ApiResponse

/-- Environment of the second adapter variant. -/
structure Env2 where
  modelName : String
  enableCaching : Bool
  cacheGet : CacheOptions → String → Except String (Option CompletionValue)
  cacheSet : CacheOptions → CompletionValue → String → Except String Unit
  send : Nat → ApiRequest2 → Except String ApiResponse

/-- Content of the (single) choice of a canonical response. -/
def choiceContent (r : LLMResponse) : Option String :=
  (r.choices.head?.map (fun c => c.message.content)).getD none

/-- Tool calls of the (single) choice of a canonical response. -/
def choiceToolCalls (r : LLMResponse) : List ToolCall :=
  (r.choices.head?.map (fun c => c.message.tool_calls)).getD []

/-- The `AwaitContent` step of the second variant's extractor: prefer truthy
message content, fall back to the arguments of the first tool call, and
fail when neither is present. -/
def extractSource (content : Option String) (toolCalls : List ToolCall) : Option String :=
  if truthyStr content then some (content.getD "")
  else
    match toolCalls with
    | tc :: _ => some tc.arguments
    | [] => none

/-- The decode cascade of the second variant's extractor: a direct
`JSON.parse`; on failure, fence stripping and the greedy brace-span match,
then a second parse. The two failure constructors correspond to the
"Failed to parse cleaned response" and "No JSON found" throw sites. -/
def parseExtractedData (s : String) : Except FailKind Json :=
  match jsonParse s with
  | some j => .ok j
  | none =>
    let cleanedData := stripFences s
    match jsonSpanMatch cleanedData with
    | some span =>
      match jsonParse span with
      | some j => .ok j
      | none => .error .parseCleanedFailed
    | none => .error .noJsonFound

/-- Variant 1 parses `message.content` directly; a null content is coerced
by ECMAScript `JSON.parse(null)` to the JSON value `null`. -/
def jsonParseContent (content : Option String) : Option Json :=
  match content with
  | none => some .null
  | some s => jsonParse s

/-- The cache write of the first variant (skipped when caching is off). -/
def cacheStore1 (env : Env1) (o : ChatOptions) (v : CompletionValue) : Except String Unit :=
  if env.enableCaching then env.cacheSet (cacheOptions env.modelName o) v o.requestId
  else .ok ()

/-- The cache write of the second variant (skipped when caching is off). -/
def cacheStore2 (env : Env2) (o : ChatOptions) (v : CompletionValue) : Except String Unit :=
  if env.enableCaching then env.cacheSet (cacheOptions env.modelName o) v o.requestId
  else .ok ()

/-- The cache lookup of the first variant (skipped when caching is off). -/
def cacheLookup1 (env : Env1) (o : ChatOptions) : Except String (Option CompletionValue) :=
  if env.enableCaching then env.cacheGet (cacheOptions env.modelName o) o.requestId
  else .ok none

/-- The cache lookup of the second variant (skipped when caching is off). -/
def cacheLookup2 (env : Env2) (o : ChatOptions) : Except String (Option CompletionValue) :=
  if env.enableCaching then env.cacheGet (cacheOptions env.modelName o) o.requestId
  else .ok none

/-- One attempt of the first variant (the body of its try block): vendor
call, normalization, then — for a structured request — a direct parse of the
content and schema validation, or — otherwise — the raw response; each
cache write may itself fail the attempt. -/
def attempt1 (env : Env1) (o : ChatOptions) (callIdx : Nat) : Except FailKind CompletionValue :=
  match env.send callIdx (buildApiRequest1 env.modelName o) with
  | .error e => .error (.adapterError e)
  | .ok api =>
    let response := normalizeResponse env.modelName api
    match o.response_model with
    | none =>
      match cacheStore1 env o (.raw response) with
      | .error e => .error (.cacheSetFailed e)
      | .ok _ => .ok (.raw response)
    | some rm =>
      match jsonParseContent (choiceContent response) with
      | none => .error .parseFailed
      | some parsedData =>
        if rm.schema.validates parsedData then
          match cacheStore1 env o (.extracted parsedData response.usage) with
          | .error e => .error (.cacheSetFailed e)
          | .ok _ => .ok (.extracted parsedData response.usage)
        else .error .zodValidationFailed

/-- One attempt of the second variant (the body of its try block): vendor
call, normalization, then — for a structured request — content/tool-call
selection, the decode cascade and schema validation. -/
def attempt2 (env : Env2) (o : ChatOptions) (callIdx : Nat) : Except FailKind CompletionValue :=
  match env.send callIdx (buildApiRequest2 env.modelName o) with
  | .error e => .error (.adapterError e)
  | .ok api =>
    let response := normalizeResponse env.modelName api
    match o.response_model with
    | none =>
      match cacheStore2 env o (.raw response) with
      | .error e => .error (.cacheSetFailed e)
      | .ok _ => .ok (.raw response)
    | some rm =>
      match extractSource (choiceContent response) (choiceToolCalls response) with
      | none => .error .noContentOrToolCalls
      | some extractedData =>
        match parseExtractedData extractedData with
        | .error k => .error k
        | .ok parsedData =>
          if rm.schema.validates parsedData then
            match cacheStore2 env o (.extracted parsedData response.usage) with
            | .error e => .error (.cacheSetFailed e)
            | .ok _ => .ok (.extracted parsedData response.usage)
          else .error .zodValidationFailed

/-- The retry recursion of the first variant, also counting vendor calls.
A cache hit returns immediately; a `get` error propagates unwrapped; a
failed attempt with remaining budget re-enters the whole call with the
identical options and a decremented budget; an exhausted budget raises the
terminal wrapper of the last failure. -/
def createChatCompletion1 (env : Env1) (o : ChatOptions) :
    Nat → Nat → Except PipelineError CompletionValue × Nat
  | retries, callIdx =>
    match cacheLookup1 env o with
    | .error e => (.error (.cacheGetError e), 0)
    | .ok (some v) => (.ok v, 0)
    | .ok none =>
      match attempt1 env o callIdx with
      | .ok v => (.ok v, 1)
      | .error k =>
        match retries with
        | r + 1 =>
          let p := createChatCompletion1 env o r (callIdx + 1)
          (p.1, p.2 + 1)
        | 0 => (.error (.createChatCompletionResponseError k), 1)

/-- The retry recursion of the second variant, also counting vendor calls. -/
def createChatCompletion2 (env : Env2) (o : ChatOptions) :
    Nat → Nat → Except PipelineError CompletionValue × Nat
  | retries, callIdx =>
    match cacheLookup2 env o with
    | .error e => (.error (.cacheGetError e), 0)
    | .ok (some v) => (.ok v, 0)
    | .ok none =>
      match attempt2 env o callIdx with
      | .ok v => (.ok v, 1)
      | .error k =>
        match retries with
        | r + 1 =>
          let p := createChatCompletion2 env o r (callIdx + 1)
          (p.1, p.2 + 1)
        | 0 => (.error (.createChatCompletionResponseError k), 1)

/-! ## Spec-side definition for the balanced-span reading -/

/-- Scanner for `specFirstBalancedSpan`: extend the span until the brace
depth returns to zero. -/
def balancedScan : Nat → List Char → List Char → Option (List Char)
  | _, _, [] => none
  | depth, acc, c :: cs =>
    if c = lbraceChar then balancedScan (depth + 1) (c :: acc) cs
    else if c = rbraceChar then
      if depth = 1 then some (c :: acc).reverse
      else balancedScan (depth - 1) (c :: acc) cs
    else balancedScan depth (c :: acc) cs

/-- Modelled from the spec: the "first balanced brace span" of a text — the
shortest prefix-balanced block starting at the first opening brace. The
source has no such function; this is the spec's wording, for comparison
with the greedy `jsonSpanMatch` the code actually performs. -/
def specFirstBalancedSpan (s : String) : Option String :=
  match findCharIdx lbraceChar s.data with
  | none => none
  | some i =>
    match balancedScan 1 [lbraceChar] (s.data.drop (i + 1)) with
    | some span => some (String.mk span)
    | none => none

/-! ## Unfolding and step lemmas for the two gateways -/

/-- Unfolding equation of `createChatCompletion1`. -/
theorem createChatCompletion1_eq (env : Env1) (o : ChatOptions) (retries callIdx : Nat) :
    createChatCompletion1 env o retries callIdx =
      match cacheLookup1 env o with
      | .error e => (.error (.cacheGetError e), 0)
      | .ok (some v) => (.ok v, 0)
      | .ok none =>
        match attempt1 env o callIdx with
        | .ok v => (.ok v, 1)
        | .error k =>
          match retries with
          | r + 1 =>
            let p := createChatCompletion1 env o r (callIdx + 1)
            (p.1, p.2 + 1)
          | 0 => (.error (.createChatCompletionResponseError k), 1) := by
  rw [createChatCompletion1]

/-- Unfolding equation of `createChatCompletion2`. -/
theorem createChatCompletion2_eq (env : Env2) (o : ChatOptions) (retries callIdx : Nat) :
    createChatCompletion2 env o retries callIdx =
      match cacheLookup2 env o with
      | .error e => (.error (.cacheGetError e), 0)
      | .ok (some v) => (.ok v, 0)
      | .ok none =>
        match attempt2 env o callIdx with
        | .ok v => (.ok v, 1)
        | .error k =>
          match retries with
          | r + 1 =>
            let p := createChatCompletion2 env o r (callIdx + 1)
            (p.1, p.2 + 1)
          | 0 => (.error (.createChatCompletionResponseError k), 1) := by
  rw [createChatCompletion2]

/-- A cache hit short-circuits the first variant. -/
theorem createChatCompletion1_hit (env : Env1) (o : ChatOptions) (v : CompletionValue)
    (retries callIdx : Nat) (hm : cacheLookup1 env o = .ok (some v)) :
    createChatCompletion1 env o retries callIdx = (.ok v, 0) := by
  rw [createChatCompletion1_eq, hm]

/-- A cache hit short-circuits the second variant. -/
theorem createChatCompletion2_hit (env : Env2) (o : ChatOptions) (v : CompletionValue)
    (retries callIdx : Nat) (hm : cacheLookup2 env o = .ok (some v)) :
    createChatCompletion2 env o retries callIdx = (.ok v, 0) := by
  rw [createChatCompletion2_eq, hm]

/-- A cache-lookup error short-circuits the first variant. -/
theorem createChatCompletion1_getError (env : Env1) (o : ChatOptions) (e : String)
    (retries callIdx : Nat) (hm : cacheLookup1 env o = .error e) :
    createChatCompletion1 env o retries callIdx = (.error (.cacheGetError e), 0) := by
  rw [createChatCompletion1_eq, hm]

/-- A cache-lookup error short-circuits the second variant. -/
theorem createChatCompletion2_getError (env : Env2) (o : ChatOptions) (e : String)
    (retries callIdx : Nat) (hm : cacheLookup2 env o = .error e) :
    createChatCompletion2 env o retries callIdx = (.error (.cacheGetError e), 0) := by
  rw [createChatCompletion2_eq, hm]

/-- A successful attempt returns after one vendor call (first variant). -/
theorem createChatCompletion1_missOk (env : Env1) (o : ChatOptions) (v : CompletionValue)
    (retries callIdx : Nat) (hm : cacheLookup1 env o = .ok none)
    (ha : attempt1 env o callIdx = .ok v) :
    createChatCompletion1 env o retries callIdx = (.ok v, 1) := by
  rw [createChatCompletion1_eq, hm, ha]

/-- A successful attempt returns after one vendor call (second variant). -/
theorem createChatCompletion2_missOk (env : Env2) (o : ChatOptions) (v : CompletionValue)
    (retries callIdx : Nat) (hm : cacheLookup2 env o = .ok none)
    (ha : attempt2 env o callIdx = .ok v) :
    createChatCompletion2 env o retries callIdx = (.ok v, 1) := by
  rw [createChatCompletion2_eq, hm, ha]

/-- With remaining budget, a failed attempt re-enters the first variant with
a decremented budget; the count grows by the one call just made. -/
theorem createChatCompletion1_missFailSucc (env : Env1) (o : ChatOptions) (r callIdx : Nat)
    (k : FailKind) (hm : cacheLookup1 env o = .ok none)
    (ha : attempt1 env o callIdx = .error k) :
    createChatCompletion1 env o (r + 1) callIdx =
      ((createChatCompletion1 env o r (callIdx + 1)).1,
       (createChatCompletion1 env o r (callIdx + 1)).2 + 1) := by
  rw [createChatCompletion1_eq, hm, ha]

/-- With remaining budget, a failed attempt re-enters the second variant
with a decremented budget; the count grows by the one call just made. -/
theorem createChatCompletion2_missFailSucc (env : Env2) (o : ChatOptions) (r callIdx : Nat)
    (k : FailKind) (hm : cacheLookup2 env o = .ok none)
    (ha : attempt2 env o callIdx = .error k) :
    createChatCompletion2 env o (r + 1) callIdx =
      ((createChatCompletion2 env o r (callIdx + 1)).1,
       (createChatCompletion2 env o r (callIdx + 1)).2 + 1) := by
  rw [createChatCompletion2_eq, hm, ha]

/-- With exhausted budget, a failed attempt raises the terminal wrapper
(first variant). -/
theorem createChatCompletion1_missFailZero (env : Env1) (o : ChatOptions) (callIdx : Nat)
    (k : FailKind) (hm : cacheLookup1 env o = .ok none)
    (ha : attempt1 env o callIdx = .error k) :
    createChatCompletion1 env o 0 callIdx =
      (.error (.createChatCompletionResponseError k), 1) := by
  rw [createChatCompletion1_eq, hm, ha]

/-- With exhausted budget, a failed attempt raises the terminal wrapper
(second variant). -/
theorem createChatCompletion2_missFailZero (env : Env2) (o : ChatOptions) (callIdx : Nat)
    (k : FailKind) (hm : cacheLookup2 env o = .ok none)
    (ha : attempt2 env o callIdx = .error k) :
    createChatCompletion2 env o 0 callIdx =
      (.error (.createChatCompletionResponseError k), 1) := by
  rw [createChatCompletion2_eq, hm, ha]

/-! ## Concrete fixtures -/

/-- A schema whose validation always succeeds and whose `zodResponseFormat`
conversion throws. -/
def schemaPlain : ZodSchema :=
  { jsonSchemaText := "\x7b\x7d", zodResponseFormatResult := none, validates := fun _ => true }

/-- A structured-output request target using `schemaPlain`. -/
def rmPlain : ResponseModel := { name := "out", schema := schemaPlain }

/-- A schema whose `zodResponseFormat` conversion succeeds. -/
def schemaNative : ZodSchema :=
  { jsonSchemaText := "\x7b\x7d", zodResponseFormatResult := some "json_schema_format",
    validates := fun _ => true }

/-- A structured-output request target using `schemaNative`. -/
def rmNative : ResponseModel := { name := "out", schema := schemaNative }

/-- A minimal options fixture without a response model. -/
def baseOptions : ChatOptions :=
  { messages := [{ role := .user, content := .str "hello" }]
    temperature := none, top_p := none, frequency_penalty := none, presence_penalty := none
    image := none, response_model := none, tools := none, tool_choice := none
    maxTokens := none, requestId := "req-1" }

/-- The options fixture with a structured-output request. -/
def optionsRM : ChatOptions := { baseOptions with response_model := some rmPlain }

/-- The options fixture requesting native structured decoding. -/
def optionsNative : ChatOptions := { baseOptions with response_model := some rmNative }

/-- A vendor reply with the given content and tool calls. -/
def apiWith (content : Option String) (tcs : Option (List ToolCall)) : ApiResponse :=
  { id := "id-1", created := 5
    choices := [{ message := some { content := content, tool_calls := tcs }
                  finish_reason := some "stop" }]
    usage := some { prompt_tokens := 1, completion_tokens := 2, total_tokens := 3 } }

/-- A failed vendor call fails the attempt with its message (first
variant). -/
theorem attempt1_sendError (env : Env1) (o : ChatOptions) (ci : Nat) (e : String)
    (hs : env.send ci (buildApiRequest1 env.modelName o) = .error e) :
    attempt1 env o ci = .error (.adapterError e) := by
  simp [attempt1, hs]

/-- A failed vendor call fails the attempt with its message (second
variant). -/
theorem attempt2_sendError (env : Env2) (o : ChatOptions) (ci : Nat) (e : String)
    (hs : env.send ci (buildApiRequest2 env.modelName o) = .error e) :
    attempt2 env o ci = .error (.adapterError e) := by
  simp [attempt2, hs]

/-- When every attempt fails, the first-variant recursion makes exactly
`r + 1` vendor calls and raises the terminal wrapper of the last failure. -/
theorem createChatCompletion1_allFail (env : Env1) (o : ChatOptions) (e : Nat → FailKind)
    (hm : cacheLookup1 env o = .ok none)
    (h : ∀ k, attempt1 env o k = .error (e k)) :
    ∀ (r ci : Nat), createChatCompletion1 env o r ci =
      (.error (.createChatCompletionResponseError (e (ci + r))), r + 1) := by
  intro r
  induction r with
  | zero =>
    intro ci
    simpa using createChatCompletion1_missFailZero env o ci (e ci) hm (h ci)
  | succ n ih =>
    intro ci
    rw [createChatCompletion1_missFailSucc env o n ci (e ci) hm (h ci), ih (ci + 1)]
    have harith : ci + 1 + n = ci + (n + 1) := by omega
    simp [harith]

/-- When every attempt fails, the second-variant recursion makes exactly
`r + 1` vendor calls and raises the terminal wrapper of the last failure. -/
theorem createChatCompletion2_allFail (env : Env2) (o : ChatOptions) (e : Nat → FailKind)
    (hm : cacheLookup2 env o = .ok none)
    (h : ∀ k, attempt2 env o k = .error (e k)) :
    ∀ (r ci : Nat), createChatCompletion2 env o r ci =
      (.error (.createChatCompletionResponseError (e (ci + r))), r + 1) := by
  intro r
  induction r with
  | zero =>
    intro ci
    simpa using createChatCompletion2_missFailZero env o ci (e ci) hm (h ci)
  | succ n ih =>
    intro ci
    rw [createChatCompletion2_missFailSucc env o n ci (e ci) hm (h ci), ih (ci + 1)]
    have harith : ci + 1 + n = ci + (n + 1) := by omega
    simp [harith]

/-! ## Claim C3 -/

/-- C3: the cache key derived from a request (`cacheOptions`) is invariant
under changing `requestId`, and consists exactly of the model name,
messages, the four sampling parameters, image, response_model, tools,
tool_choice and maxTokens. The retry budget is a separate argument of
`createChatCompletion` and is not an input of `cacheOptions` at all, so it
cannot occur in the key. -/
theorem cache_key_ignores_request_identity :
    (∀ (m : String) (o : ChatOptions) (r : String),
      cacheOptions m { o with requestId := r } = cacheOptions m o)
    ∧ (∀ (m : String) (o : ChatOptions),
      (cacheOptions m o).model = m ∧
      (cacheOptions m o).messages = o.messages ∧
      (cacheOptions m o).temperature = o.temperature ∧
      (cacheOptions m o).top_p = o.top_p ∧
      (cacheOptions m o).frequency_penalty = o.frequency_penalty ∧
      (cacheOptions m o).presence_penalty = o.presence_penalty ∧
      (cacheOptions m o).image = o.image ∧
      (cacheOptions m o).response_model = o.response_model ∧
      (cacheOptions m o).tools = o.tools ∧
      (cacheOptions m o).tool_choice = o.tool_choice ∧
      (cacheOptions m o).maxTokens = o.maxTokens) :=
  ⟨fun _ _ _ => rfl,
   fun _ _ => ⟨rfl, rfl, rfl, rfl, rfl, rfl, rfl, rfl, rfl, rfl, rfl⟩⟩

/-! ## Claim C9 -/

/-- C9: formatting keeps every content part (text and image) for user
messages, keeps only the text parts for system and assistant messages, and
passes plain string content through with the role preserved. -/
theorem formatted_messages_role_projection :
    (∀ ps, formatMessage { role := .user, content := .parts ps } =
      { role := .user, content := .parts ps })
    ∧ (∀ ps, formatMessage { role := .system, content := .parts ps } =
      { role := .system, content := .parts (ps.filter isTextPart) })
    ∧ (∀ ps, formatMessage { role := .assistant, content := .parts ps } =
      { role := .assistant, content := .parts (ps.filter isTextPart) })
    ∧ (∀ t, isTextPart (.text t) = true)
    ∧ (∀ u, isTextPart (.image u) = false)
    ∧ (∀ (r : Role) (s : String),
      formatMessage { role := r, content := .str s } = { role := r, content := .str s }) := by
  refine ⟨fun _ => rfl, fun _ => rfl, fun _ => rfl, fun _ => rfl, fun _ => rfl, ?_⟩
  intro r s
  cases r <;> rfl

/-! ## Claim C10 -/

/-- C10: a vendor call is issued with temperature 0.7 whenever the caller's
temperature is absent or zero (the source computes
`options.temperature || 0.7`), while the cache key records the
caller-supplied value unchanged — so a caller temperature of 0 is never
transmitted even though it distinguishes cache entries from an absent
temperature. -/
theorem temperature_default_zero_conflation :
    sentTemperature none = 7 / 10
    ∧ sentTemperature (some 0) = 7 / 10
    ∧ (∀ (m : String) (o : ChatOptions),
      (buildApiRequest1 m o).temperature = sentTemperature o.temperature
      ∧ (buildApiRequest2 m o).temperature = sentTemperature o.temperature)
    ∧ (∀ (m : String) (o : ChatOptions),
      (cacheOptions m o).temperature = o.temperature)
    ∧ (∀ (m : String) (o : ChatOptions),
      (buildApiRequest2 m { o with temperature := some 0 }).temperature = 7 / 10
      ∧ (buildApiRequest1 m { o with temperature := some 0 }).temperature = 7 / 10
      ∧ (buildApiRequest2 m { o with temperature := some 0 }).temperature ≠ 0)
    ∧ (∀ (m : String) (o : ChatOptions),
      cacheOptions m { o with temperature := some 0 } ≠ cacheOptions m { o with temperature := none }) := by
  refine ⟨rfl, rfl, fun _ _ => ⟨rfl, rfl⟩, fun _ _ => rfl, fun m o => ⟨rfl, rfl, ?_⟩, ?_⟩
  · show (7 / 10 : ℚ) ≠ 0
    norm_num
  · intro m o h
    have h2 := congrArg CacheOptions.temperature h
    simp [cacheOptions] at h2

/-! ## Claim C2 -/

/-- C2: with caching enabled and a cached entry present for the request's
key, both adapter variants return the cached entry with zero vendor calls:
no retry is consumed and no extraction or validation runs (the conclusion
holds for every environment, in particular for every `send` and every
schema validator, and for every retry budget). -/
theorem cache_hit_short_circuits :
    (∀ (env : Env2) (o : ChatOptions) (v : CompletionValue) (retries callIdx : Nat),
      env.enableCaching = true →
      env.cacheGet (cacheOptions env.modelName o) o.requestId = .ok (some v) →
      createChatCompletion2 env o retries callIdx = (.ok v, 0))
    ∧ (∀ (env : Env1) (o : ChatOptions) (v : CompletionValue) (retries callIdx : Nat),
      env.enableCaching = true →
      env.cacheGet (cacheOptions env.modelName o) o.requestId = .ok (some v) →
      createChatCompletion1 env o retries callIdx = (.ok v, 0)) := by
  constructor
  · intro env o v retries callIdx hc hget
    exact createChatCompletion2_hit env o v retries callIdx (by simp [cacheLookup2, hc, hget])
  · intro env o v retries callIdx hc hget
    exact createChatCompletion1_hit env o v retries callIdx (by simp [cacheLookup1, hc, hget])

/-- A cached value fixture. -/
def cachedVal : CompletionValue := .raw (normalizeResponse "m" (apiWith (some "hi") none))

/-- An environment whose cache always hits (second variant); its vendor
endpoint always fails, so any vendor call would be visible in the result. -/
def envHit2 : Env2 :=
  { modelName := "m", enableCaching := true
    cacheGet := fun _ _ => .ok (some cachedVal)
    cacheSet := fun _ _ _ => .ok ()
    send := fun _ _ => .error "adapter must not be called" }

/-- An environment whose cache always hits (first variant). -/
def envHit1 : Env1 :=
  { modelName := "m", enableCaching := true
    cacheGet := fun _ _ => .ok (some cachedVal)
    cacheSet := fun _ _ _ => .ok ()
    send := fun _ _ => .error "adapter must not be called" }

/-- Witness for C2 at concrete environments. -/
theorem cache_hit_short_circuits_witness :
    createChatCompletion2 envHit2 baseOptions 5 0 = (.ok cachedVal, 0)
    ∧ createChatCompletion1 envHit1 baseOptions 5 0 = (.ok cachedVal, 0) :=
  ⟨cache_hit_short_circuits.1 envHit2 baseOptions cachedVal 5 0 rfl rfl,
   cache_hit_short_circuits.2 envHit1 baseOptions cachedVal 5 0 rfl rfl⟩

/-! ## Claim C1 -/

/-- Failure at the JSON-parse stage of the second variant's extractor:
either the greedy-span parse failed or no span was found. -/
def parseStageFailure (e : FailKind) : Prop :=
  e = .parseCleanedFailed ∨ e = .noJsonFound

/-- C1: when every attempt fails at the JSON-parse stage, a call with a
retry budget of 2 makes exactly 3 vendor calls (each retry re-enters the
gateway with the identical options and a decremented budget — the vendor
request of every attempt is the same pure function of the options) and
terminates by raising the terminal wrapper of the parse error, never by
returning a value. The second conjunct settles the same property for the
first variant, whose parse stage is the direct `JSON.parse` of the
content. -/
theorem llm_retry_exhaustion_parse :
    (∀ (env : Env2) (o : ChatOptions),
      env.enableCaching = false →
      (∀ k, ∃ e, parseStageFailure e ∧ attempt2 env o k = .error e) →
      ∃ e, parseStageFailure e ∧
        createChatCompletion2 env o 2 0 =
          (.error (.createChatCompletionResponseError e), 3))
    ∧ (∀ (env : Env1) (o : ChatOptions),
      env.enableCaching = false →
      (∀ k, attempt1 env o k = .error .parseFailed) →
      createChatCompletion1 env o 2 0 =
        (.error (.createChatCompletionResponseError .parseFailed), 3)) := by
  constructor
  · intro env o hc h
    choose e he using h
    have hm : cacheLookup2 env o = .ok none := by simp [cacheLookup2, hc]
    refine ⟨e 2, (he 2).1, ?_⟩
    simpa using createChatCompletion2_allFail env o e hm (fun k => (he k).2) 2 0
  · intro env o hc h
    have hm : cacheLookup1 env o = .ok none := by simp [cacheLookup1, hc]
    simpa using createChatCompletion1_allFail env o (fun _ => .parseFailed) hm h 2 0

/-- An environment whose vendor always replies with unparseable prose
(second variant). -/
def envParseFail2 : Env2 :=
  { modelName := "m", enableCaching := false
    cacheGet := fun _ _ => .ok none
    cacheSet := fun _ _ _ => .ok ()
    send := fun _ _ => .ok (apiWith (some "I cannot answer that") none) }

/-- An environment whose vendor always replies with unparseable prose
(first variant). -/
def envParseFail1 : Env1 :=
  { modelName := "m", enableCaching := false
    cacheGet := fun _ _ => .ok none
    cacheSet := fun _ _ _ => .ok ()
    send := fun _ _ => .ok (apiWith (some "not json") none) }

/-- Witness for C1 at concrete always-unparseable environments. -/
theorem llm_retry_exhaustion_parse_witness :
    (∃ e, parseStageFailure e ∧
      createChatCompletion2 envParseFail2 optionsRM 2 0 =
        (.error (.createChatCompletionResponseError e), 3))
    ∧ createChatCompletion1 envParseFail1 optionsRM 2 0 =
        (.error (.createChatCompletionResponseError .parseFailed), 3) :=
  ⟨llm_retry_exhaustion_parse.1 envParseFail2 optionsRM rfl
     (fun _ => ⟨.noJsonFound, Or.inr rfl, rfl⟩),
   llm_retry_exhaustion_parse.2 envParseFail1 optionsRM rfl (fun _ => rfl)⟩

/-! ## Claim C6 -/

/-- An environment whose cache backend fails on `get`. -/
def envGetErr : Env2 :=
  { modelName := "m", enableCaching := true
    cacheGet := fun _ _ => .error "cache backend unavailable"
    cacheSet := fun _ _ _ => .ok ()
    send := fun _ _ => .ok (apiWith (some "hi") none) }

/-- An environment whose cache backend fails on `set`. -/
def envSetErr : Env2 :=
  { modelName := "m", enableCaching := true
    cacheGet := fun _ _ => .ok none
    cacheSet := fun _ _ _ => .error "disk full"
    send := fun _ _ => .ok (apiWith (some "hi") none) }

/-- C6 counterexample: the source calls `cache.get` outside its try block,
so a backend error during `get` is not swallowed: the call raises it to the
caller (it is not treated as a miss, and the adapter is never reached even
though it would have succeeded). -/
theorem cache_error_swallowed_counterexample :
    createChatCompletion2 envGetErr baseOptions 2 0 =
      (.error (.cacheGetError "cache backend unavailable"), 0) := rfl

/-- C6 amended: a backend error during `get` propagates to the caller
unchanged, with no adapter call and no retry; a backend error during `set`
is caught by the invocation's generic failure handler, so it fails the
attempt, consumes the whole retry budget (one additional vendor call per
retry) and surfaces as the terminal `CreateChatCompletionResponseError`. -/
theorem cache_backend_error_behavior :
    (∀ (env : Env2) (o : ChatOptions) (e : String) (retries callIdx : Nat),
      env.enableCaching = true →
      env.cacheGet (cacheOptions env.modelName o) o.requestId = .error e →
      createChatCompletion2 env o retries callIdx = (.error (.cacheGetError e), 0))
    ∧ (∀ (env : Env2) (o : ChatOptions) (e : String) (r : Nat),
      env.enableCaching = true →
      env.cacheGet (cacheOptions env.modelName o) o.requestId = .ok none →
      o.response_model = none →
      (∀ ci, ∃ api, env.send ci (buildApiRequest2 env.modelName o) = .ok api ∧
        env.cacheSet (cacheOptions env.modelName o)
          (.raw (normalizeResponse env.modelName api)) o.requestId = .error e) →
      ∀ ci, createChatCompletion2 env o r ci =
        (.error (.createChatCompletionResponseError (.cacheSetFailed e)), r + 1)) := by
  constructor
  · intro env o e retries callIdx hc hget
    exact createChatCompletion2_getError env o e retries callIdx (by simp [cacheLookup2, hc, hget])
  · intro env o e r hc hget hrm h
    have hm : cacheLookup2 env o = .ok none := by simp [cacheLookup2, hc, hget]
    have hatt : ∀ ci, attempt2 env o ci = .error (.cacheSetFailed e) := by
      intro ci
      obtain ⟨api, hs, hset⟩ := h ci
      simp [attempt2, hs, hrm, cacheStore2, hc, hset]
    exact createChatCompletion2_allFail env o (fun _ => .cacheSetFailed e) hm hatt r

/-- Witness for the amended C6 at concrete failing cache backends. -/
theorem cache_backend_error_behavior_witness :
    createChatCompletion2 envGetErr baseOptions 1 0 =
      (.error (.cacheGetError "cache backend unavailable"), 0)
    ∧ createChatCompletion2 envSetErr baseOptions 1 0 =
      (.error (.createChatCompletionResponseError (.cacheSetFailed "disk full")), 2) :=
  ⟨cache_backend_error_behavior.1 envGetErr baseOptions "cache backend unavailable" 1 0 rfl rfl,
   cache_backend_error_behavior.2 envSetErr baseOptions "disk full" 1 rfl rfl rfl
     (fun _ => ⟨apiWith (some "hi") none, rfl, rfl⟩) 0⟩

/-! ## Claim C8 -/

/-- A vendor reply carrying neither content nor tool calls. -/
def apiNoContent : ApiResponse :=
  { id := "id-2", created := 7
    choices := [{ message := some { content := none, tool_calls := none }
                  finish_reason := none }]
    usage := none }

/-- An environment whose vendor replies with neither content nor tool
calls. -/
def envNoContent : Env2 :=
  { modelName := "m", enableCaching := false
    cacheGet := fun _ _ => .ok none
    cacheSet := fun _ _ _ => .ok ()
    send := fun _ _ => .ok apiNoContent }

/-- C8 counterexample: for a request without a response model, a vendor
reply with null content and no tool calls is normalized and returned to the
caller as a response whose content is null while its tool_calls array is
empty — the claimed invariant does not hold for returned responses. -/
theorem null_content_without_toolcalls_counterexample :
    createChatCompletion2 envNoContent baseOptions 2 0 =
      (.ok (.raw (normalizeResponse "m" apiNoContent)), 1)
    ∧ choiceContent (normalizeResponse "m" apiNoContent) = none
    ∧ choiceToolCalls (normalizeResponse "m" apiNoContent) = [] :=
  ⟨rfl, rfl, rfl⟩

/-- The content of the constructed choice is the normalized vendor
content. -/
theorem choiceContent_normalize (m : String) (api : ApiResponse) :
    choiceContent (normalizeResponse m api) = normContent api := rfl

/-- The tool calls of the constructed choice are the normalized vendor tool
calls. -/
theorem choiceToolCalls_normalize (m : String) (api : ApiResponse) :
    choiceToolCalls (normalizeResponse m api) = normToolCalls api := rfl

/-- A successful attempt without a response model returns the normalization
of an actual vendor reply obtained by this attempt's call. -/
theorem attempt2_ok_val (env : Env2) (o : ChatOptions) (ci : Nat) (v : CompletionValue)
    (hrm : o.response_model = none) (h : attempt2 env o ci = .ok v) :
    ∃ api, env.send ci (buildApiRequest2 env.modelName o) = .ok api ∧
      v = .raw (normalizeResponse env.modelName api) := by
  cases hs : env.send ci (buildApiRequest2 env.modelName o) with
  | error e => simp [attempt2, hs] at h
  | ok api =>
    cases hcs : cacheStore2 env o (.raw (normalizeResponse env.modelName api)) with
    | error e => simp [attempt2, hs, hrm, hcs] at h
    | ok u =>
      simp [attempt2, hs, hrm, hcs] at h
      exact ⟨api, rfl, h.symm⟩

/-- A returned `ok` result of the second-variant recursion (caching off, no
response model) comes from some vendor call of this invocation chain. -/
theorem createChatCompletion2_ok_source (env : Env2) (o : ChatOptions)
    (hc : env.enableCaching = false) (hrm : o.response_model = none) :
    ∀ (r ci n : Nat) (v : CompletionValue),
      createChatCompletion2 env o r ci = (.ok v, n) →
      ∃ k api, env.send k (buildApiRequest2 env.modelName o) = .ok api ∧
        v = .raw (normalizeResponse env.modelName api) := by
  have hm : cacheLookup2 env o = .ok none := by simp [cacheLookup2, hc]
  intro r
  induction r with
  | zero =>
    intro ci n v h
    rw [createChatCompletion2_eq, hm] at h
    cases hatt : attempt2 env o ci with
    | ok w =>
      rw [hatt] at h
      obtain ⟨api, hs, he⟩ := attempt2_ok_val env o ci w hrm hatt
      have hv : w = v := by simpa using congrArg Prod.fst h
      exact ⟨ci, api, hs, hv ▸ he⟩
    | error k =>
      rw [hatt] at h
      simp at h
  | succ m ih =>
    intro ci n v h
    rw [createChatCompletion2_eq, hm] at h
    cases hatt : attempt2 env o ci with
    | ok w =>
      rw [hatt] at h
      obtain ⟨api, hs, he⟩ := attempt2_ok_val env o ci w hrm hatt
      have hv : w = v := by simpa using congrArg Prod.fst h
      exact ⟨ci, api, hs, hv ▸ he⟩
    | error k =>
      rw [hatt] at h
      have h1 : (createChatCompletion2 env o m (ci + 1)).1 = .ok v := by
        simpa using congrArg Prod.fst h
      have hp : createChatCompletion2 env o m (ci + 1) =
          (.ok v, (createChatCompletion2 env o m (ci + 1)).2) := by
        rw [Prod.ext_iff]
        exact ⟨h1, rfl⟩
      exact ih (ci + 1) (createChatCompletion2 env o m (ci + 1)).2 v hp

/-- C8 amended: a returned response's content is null exactly when the
vendor reply's content was absent or empty (tool calls play no role in
that), and such a response can carry an empty tool_calls array; what does
hold is that raw responses returned with caching off are always
normalizations of actual vendor replies, and that when the vendor call
fails on every attempt the pipeline raises the terminal error and never
returns a response. -/
theorem response_nullability_and_failure :
    (∀ (env : Env2) (o : ChatOptions) (msg : Nat → String) (r : Nat),
      env.enableCaching = false →
      (∀ k, env.send k (buildApiRequest2 env.modelName o) = .error (msg k)) →
      ∀ ci, createChatCompletion2 env o r ci =
        (.error (.createChatCompletionResponseError (.adapterError (msg (ci + r)))), r + 1))
    ∧ (∀ (env : Env2) (o : ChatOptions) (r ci n : Nat) (resp : LLMResponse),
      env.enableCaching = false →
      o.response_model = none →
      createChatCompletion2 env o r ci = (.ok (.raw resp), n) →
      ∃ k api, env.send k (buildApiRequest2 env.modelName o) = .ok api ∧
        resp = normalizeResponse env.modelName api)
    ∧ (∀ (m : String) (api : ApiResponse),
      choiceContent (normalizeResponse m api) = none ↔
        truthyStr ((apiRawMessage api).bind (fun mg => mg.content)) = false) := by
  refine ⟨?_, ?_, ?_⟩
  · intro env o msg r hc h
    have hm : cacheLookup2 env o = .ok none := by simp [cacheLookup2, hc]
    exact createChatCompletion2_allFail env o (fun k => .adapterError (msg k)) hm
      (fun k => attempt2_sendError env o k (msg k) (h k)) r
  · intro env o r ci n resp hc hrm h
    obtain ⟨k, api, hs, he⟩ := createChatCompletion2_ok_source env o hc hrm r ci n (.raw resp) h
    exact ⟨k, api, hs, by simpa using he⟩
  · intro m api
    rw [choiceContent_normalize]
    cases hx : (apiRawMessage api).bind (fun mg => mg.content) with
    | none => simp [normContent, orNullStr, truthyStr, hx]
    | some s =>
      by_cases hs : s = ""
      · simp [normContent, orNullStr, truthyStr, hx, hs]
      · simp [normContent, orNullStr, truthyStr, hx, hs]

/-- An environment whose vendor call always fails. -/
def envAllFailSend : Env2 :=
  { modelName := "m", enableCaching := false
    cacheGet := fun _ _ => .ok none
    cacheSet := fun _ _ _ => .ok ()
    send := fun _ _ => .error "network down" }

/-- Witness for the amended C8 at concrete environments. -/
theorem response_nullability_and_failure_witness :
    createChatCompletion2 envAllFailSend baseOptions 2 0 =
      (.error (.createChatCompletionResponseError (.adapterError "network down")), 3)
    ∧ (∃ k api, envNoContent.send k (buildApiRequest2 envNoContent.modelName baseOptions) = .ok api ∧
        normalizeResponse "m" apiNoContent = normalizeResponse envNoContent.modelName api)
    ∧ (choiceContent (normalizeResponse "m" apiNoContent) = none ↔
        truthyStr ((apiRawMessage apiNoContent).bind (fun mg => mg.content)) = false) :=
  ⟨response_nullability_and_failure.1 envAllFailSend baseOptions (fun _ => "network down") 2
     rfl (fun _ => rfl) 0,
   response_nullability_and_failure.2.1 envNoContent baseOptions 2 0 1
     (normalizeResponse "m" apiNoContent) rfl rfl rfl,
   response_nullability_and_failure.2.2 "m" apiNoContent⟩

/-! ## Claim C4 -/

/-- The spec's fallback-decoding example text. -/
def fenceExampleText : String := "Here is the result:\n```json\n\x7b\x22a\x22:1\x7d\n```"

/-- A text containing two balanced objects. -/
def multiObjText : String := "\x7b\x22a\x22:1\x7d \x7b\x22b\x22:2\x7d"

/-- C4 counterexample: on a text holding two balanced objects the extractor
fails, because its regex is greedy — it takes the span from the first
opening brace to the last closing brace, not the first balanced span; the
first balanced span is present and would parse. -/
theorem first_balanced_span_counterexample :
    parseExtractedData multiObjText = .error .parseCleanedFailed
    ∧ specFirstBalancedSpan (stripFences multiObjText) = some "\x7b\x22a\x22:1\x7d"
    ∧ jsonParse "\x7b\x22a\x22:1\x7d" = some (.obj [("a", .num 1)]) :=
  ⟨rfl, rfl, rfl⟩

/-- C4 amended: when the raw text is not directly parseable, the extractor
strips markdown code-fence markers and takes the span from the first
opening brace to the last closing brace of the remaining text (the greedy
regex match), parsing that span; on the spec's example it extracts the
object successfully; if no such span is found it fails with the
no-JSON-found error, and if the span does not parse it fails with the
parse error. -/
theorem extractor_fence_strip_greedy_span :
    parseExtractedData fenceExampleText = .ok (.obj [("a", .num 1)])
    ∧ (∀ s, jsonParse s = none → jsonSpanMatch (stripFences s) = none →
        parseExtractedData s = .error .noJsonFound)
    ∧ (∀ s span j, jsonParse s = none → jsonSpanMatch (stripFences s) = some span →
        jsonParse span = some j → parseExtractedData s = .ok j)
    ∧ (∀ s span, jsonParse s = none → jsonSpanMatch (stripFences s) = some span →
        jsonParse span = none → parseExtractedData s = .error .parseCleanedFailed) := by
  refine ⟨rfl, ?_, ?_, ?_⟩
  · intro s h1 h2
    simp [parseExtractedData, h1, h2]
  · intro s span j h1 h2 h3
    simp [parseExtractedData, h1, h2, h3]
  · intro s span h1 h2 h3
    simp [parseExtractedData, h1, h2, h3]

/-- Witness for the amended C4 at concrete texts. -/
theorem extractor_fence_strip_greedy_span_witness :
    parseExtractedData "no json at all" = .error .noJsonFound
    ∧ parseExtractedData "prefix \x7b\x22b\x22:2\x7d suffix" = .ok (.obj [("b", .num 2)])
    ∧ parseExtractedData "a \x7b\x7d b \x7b\x7d" = .error .parseCleanedFailed :=
  ⟨extractor_fence_strip_greedy_span.2.1 "no json at all" rfl rfl,
   extractor_fence_strip_greedy_span.2.2.1 "prefix \x7b\x22b\x22:2\x7d suffix"
     "\x7b\x22b\x22:2\x7d" (.obj [("b", .num 2)]) rfl rfl rfl,
   extractor_fence_strip_greedy_span.2.2.2 "a \x7b\x7d b \x7b\x7d" "\x7b\x7d b \x7b\x7d"
     rfl rfl rfl⟩

/-! ## Claim C5 -/

/-- C5: the extractor prefers truthy message content; with falsy content it
takes the arguments payload of the first tool call; with neither it fails
with the no-content error (terminal when the budget is exhausted); and a
directly parseable text — such as a tool call's arguments string — is
decoded by the direct parse, never reaching the markdown-stripping logic. -/
theorem await_content_preference :
    (∀ (s : String) (tcs : List ToolCall), s ≠ "" → extractSource (some s) tcs = some s)
    ∧ (∀ (c : Option String) (tc : ToolCall) (tcs : List ToolCall),
        truthyStr c = false → extractSource c (tc :: tcs) = some tc.arguments)
    ∧ (∀ (c : Option String), truthyStr c = false → extractSource c [] = none)
    ∧ (∀ (s : String) (j : Json), jsonParse s = some j → parseExtractedData s = .ok j)
    ∧ (∀ (env : Env2) (o : ChatOptions) (rm : ResponseModel) (ci : Nat) (api : ApiResponse),
        o.response_model = some rm →
        env.send ci (buildApiRequest2 env.modelName o) = .ok api →
        normContent api = none → normToolCalls api = [] →
        attempt2 env o ci = .error .noContentOrToolCalls
        ∧ (cacheLookup2 env o = .ok none →
           createChatCompletion2 env o 0 ci =
             (.error (.createChatCompletionResponseError .noContentOrToolCalls), 1))) := by
  refine ⟨?_, ?_, ?_, ?_, ?_⟩
  · intro s tcs h
    simp [extractSource, truthyStr, h]
  · intro c tc tcs h
    simp [extractSource, h]
  · intro c h
    simp [extractSource, h]
  · intro s j h
    simp [parseExtractedData, h]
  · intro env o rm ci api hrm hs hcont htc
    have hatt : attempt2 env o ci = .error .noContentOrToolCalls := by
      simp [attempt2, hs, hrm, choiceContent_normalize, choiceToolCalls_normalize,
        hcont, htc, extractSource, truthyStr]
    exact ⟨hatt, fun hm => createChatCompletion2_missFailZero env o ci _ hm hatt⟩

/-- A tool call carrying a directly parseable arguments string. -/
def toolCallA : ToolCall := { id := "call-1", name := "emit", arguments := "\x7b\x22a\x22:1\x7d" }

/-- An environment whose vendor replies with neither content nor tool calls
under a structured request. -/
def envEmptyResp : Env2 :=
  { modelName := "m", enableCaching := false
    cacheGet := fun _ _ => .ok none
    cacheSet := fun _ _ _ => .ok ()
    send := fun _ _ => .ok apiNoContent }

/-- Witness for C5 at concrete inputs. -/
theorem await_content_preference_witness :
    extractSource (some "\x7b\x22a\x22:1\x7d") [] = some "\x7b\x22a\x22:1\x7d"
    ∧ extractSource none [toolCallA] = some toolCallA.arguments
    ∧ extractSource none [] = none
    ∧ parseExtractedData toolCallA.arguments = .ok (.obj [("a", .num 1)])
    ∧ attempt2 envEmptyResp optionsRM 0 = .error .noContentOrToolCalls
    ∧ createChatCompletion2 envEmptyResp optionsRM 0 0 =
        (.error (.createChatCompletionResponseError .noContentOrToolCalls), 1) := by
  refine ⟨await_content_preference.1 "\x7b\x22a\x22:1\x7d" [] (by decide),
    await_content_preference.2.1 none toolCallA [] rfl,
    await_content_preference.2.2.1 none rfl,
    await_content_preference.2.2.2.1 toolCallA.arguments (.obj [("a", .num 1)]) rfl,
    ?_, ?_⟩
  · exact (await_content_preference.2.2.2.2 envEmptyResp optionsRM rmPlain 0 apiNoContent
      rfl rfl rfl rfl).1
  · exact (await_content_preference.2.2.2.2 envEmptyResp optionsRM rmPlain 0 apiNoContent
      rfl rfl rfl rfl).2 rfl

/-! ## Claim C7 -/

/-- An environment (first variant) whose vendor rejects every request. -/
def envVendorReject : Env1 :=
  { modelName := "m", enableCaching := false
    cacheGet := fun _ _ => .ok none
    cacheSet := fun _ _ _ => .ok ()
    send := fun _ _ => .error "response_format not supported" }

/-- C7 counterexample: when the schema converts to a native response format
but the vendor rejects the structured request, the first variant retries
and then raises the terminal error; the request of every attempt still
carries the native `response_format` and no schema-instruction message is
ever appended — the claimed fallback on vendor rejection does not happen. -/
theorem vendor_reject_no_fallback_counterexample :
    createChatCompletion1 envVendorReject optionsNative 1 0 =
      (.error (.createChatCompletionResponseError
        (.adapterError "response_format not supported")), 2)
    ∧ (buildApiRequest1 "m" optionsNative).response_format = some "json_schema_format"
    ∧ (buildApiRequest1 "m" optionsNative).messages = baseMessages optionsNative :=
  ⟨rfl, rfl, rfl⟩

/-- C7 amended: the first variant requests native schema-constrained
decoding exactly when converting the schema to the vendor response format
succeeds, and appends the prompt-injected schema instruction only when that
client-side conversion throws; a vendor rejection of the structured request
is retried with the identical native request and finally surfaces as the
terminal error, never triggering the prompt fallback. The duplicate second
variant never requests native decoding and always appends the instruction
message. -/
theorem structured_decoding_negotiation :
    (∀ (m : String) (o : ChatOptions) (rm : ResponseModel) (f : String),
      o.response_model = some rm →
      rm.schema.zodResponseFormatResult = some f →
      (buildApiRequest1 m o).response_format = some f
      ∧ (buildApiRequest1 m o).messages = baseMessages o)
    ∧ (∀ (m : String) (o : ChatOptions) (rm : ResponseModel),
      o.response_model = some rm →
      rm.schema.zodResponseFormatResult = none →
      (buildApiRequest1 m o).response_format = none
      ∧ (buildApiRequest1 m o).messages = baseMessages o ++ [instructionMessage1 rm])
    ∧ (∀ (m : String) (o : ChatOptions) (rm : ResponseModel),
      o.response_model = some rm →
      (buildApiRequest2 m o).messages = baseMessages o ++ [instructionMessage2 rm])
    ∧ (∀ (env : Env1) (o : ChatOptions) (msg : Nat → String) (r : Nat),
      env.enableCaching = false →
      (∀ k, env.send k (buildApiRequest1 env.modelName o) = .error (msg k)) →
      ∀ ci, createChatCompletion1 env o r ci =
        (.error (.createChatCompletionResponseError (.adapterError (msg (ci + r)))), r + 1)) := by
  refine ⟨?_, ?_, ?_, ?_⟩
  · intro m o rm f hrm hf
    constructor
    · simp [buildApiRequest1, hrm, hf]
    · simp [buildApiRequest1, hrm, hf]
  · intro m o rm hrm hf
    constructor
    · simp [buildApiRequest1, hrm, hf]
    · simp [buildApiRequest1, hrm, hf]
  · intro m o rm hrm
    simp [buildApiRequest2, hrm]
  · intro env o msg r hc h
    have hm : cacheLookup1 env o = .ok none := by simp [cacheLookup1, hc]
    exact createChatCompletion1_allFail env o (fun k => .adapterError (msg k)) hm
      (fun k => attempt1_sendError env o k (msg k) (h k)) r

/-- Witness for the amended C7 at concrete schemas and environments. -/
theorem structured_decoding_negotiation_witness :
    ((buildApiRequest1 "m" optionsNative).response_format = some "json_schema_format"
      ∧ (buildApiRequest1 "m" optionsNative).messages = baseMessages optionsNative)
    ∧ ((buildApiRequest1 "m" optionsRM).response_format = none
      ∧ (buildApiRequest1 "m" optionsRM).messages =
          baseMessages optionsRM ++ [instructionMessage1 rmPlain])
    ∧ (buildApiRequest2 "m" optionsRM).messages =
        baseMessages optionsRM ++ [instructionMessage2 rmPlain]
    ∧ createChatCompletion1 envVendorReject optionsNative 2 0 =
        (.error (.createChatCompletionResponseError
          (.adapterError "response_format not supported")), 3) :=
  ⟨structured_decoding_negotiation.1 "m" optionsNative rmNative "json_schema_format" rfl rfl,
   structured_decoding_negotiation.2.1 "m" optionsRM rmPlain rfl rfl,
   structured_decoding_negotiation.2.2.1 "m" optionsRM rmPlain rfl,
   structured_decoding_negotiation.2.2.2 envVendorReject optionsNative
     (fun _ => "response_format not supported") 2 rfl (fun _ => rfl) 0⟩

end Stagehand
